import Mathlib

/-!
Shallow embedding of the thumbnail service
(`Backend-Azure-Functions/GenerateThumbnail/__init__.py`).

The entry point `main` receives an HTTP request, reads the uploaded file from
the `file` form field, decodes it with PIL, computes an in-place thumbnail with
a 128 by 128 bounding box, re-encodes it as JPEG, and uploads the original
bytes and the thumbnail bytes to the `originalimages` and `thumbnails` blob
containers under freshly generated names.  External collaborators (PIL's
decoder and JPEG encoder, `uuid.uuid4`, the process environment, the blob
service) are modelled as an explicit environment record; `main` returns the
HTTP response together with the ordered trace of blob writes it performed.
-/

namespace GenerateThumbnail

/-- A byte string; each entry is one byte. -/
abbrev Bytes := List Nat

/-- The value surfaced by `req.files.get("file")` when the field is present:
a werkzeug `FileStorage` carrying a filename and the content bytes. -/
structure FileStorage where
  filename : String
  content : Bytes
deriving DecidableEq

/-- Truthiness of the Python expression `file` in `if not file`: a missing
field gives `None` (falsy); a werkzeug `FileStorage` defines `__bool__` as
`bool(self.filename)`, so a present file object is falsy exactly when its
filename is empty — its content plays no role. -/
def fileTruthy : Option FileStorage → Bool
  | none => false
  | some f => !(f.filename == "")

/-- A decoded PIL image; only the pixel dimensions are modelled. -/
structure PILImage where
  width : Nat
  height : Nat
deriving DecidableEq

/-- Python's two-argument `min(a, b, key=key)`: the first argument wins ties. -/
def pyMinBy (a b : ℤ) (key : ℤ → ℚ) : ℤ :=
  if key a ≤ key b then a else b

/-- Pillow's `round_aspect(number, key)` from `Image.thumbnail`:
`max(min(math.floor(number), math.ceil(number), key=key), 1)`. -/
def round_aspect (number : ℚ) (key : ℤ → ℚ) : ℤ :=
  max (pyMinBy ⌊number⌋ ⌈number⌉ key) 1

/-- Dimension computation of Pillow's `Image.thumbnail((x, y))` on a `w` by `h`
image: unchanged when the image already fits the box, otherwise the longer
side is scaled to the box and the other side is rounded to best preserve the
aspect ratio `w / h` (ties broken towards `math.floor`, lower bound 1). -/
def thumbnailDims (w h : Nat) (x y : Nat) : Nat × Nat :=
  if x ≥ w ∧ y ≥ h then (w, h)
  else
    let aspect : ℚ := (w : ℚ) / (h : ℚ)
    if (x : ℚ) / (y : ℚ) ≥ aspect then
      ((round_aspect ((y : ℚ) * aspect) (fun n => |aspect - (n : ℚ) / (y : ℚ)|)).toNat, y)
    else
      (x, (round_aspect ((x : ℚ) / aspect)
            (fun n => if n = 0 then 0 else |aspect - (x : ℚ) / (n : ℚ)|)).toNat)

/-- Effect of `image.thumbnail((128, 128))` in `main` on the image dimensions. -/
def applyThumbnail (img : PILImage) : PILImage :=
  ⟨(thumbnailDims img.width img.height 128 128).1,
   (thumbnailDims img.width img.height 128 128).2⟩

/-- JSON escaping of one character as `json.dumps` performs it for the quote
and backslash characters (the only escapes URLs can require here). -/
def jsonEscapeChar (c : Char) : String :=
  if c = '\\' then "\\\\"
  else if c = '"' then "\\\""
  else String.singleton c

/-- JSON escaping of a string. -/
def jsonEscape (s : String) : String :=
  String.join (s.data.map jsonEscapeChar)

/-- Serialization of a string-valued JSON object with `json.dumps` default
separators, fields kept in insertion order as Python dicts do. -/
def jsonDumps (kvs : List (String × String)) : String :=
  "\x7b" ++ String.intercalate ", "
    (kvs.map fun kv => "\"" ++ jsonEscape kv.1 ++ "\": \"" ++ jsonEscape kv.2 ++ "\"")
    ++ "\x7d"

/-- An `azure.functions.HttpResponse`: body, status code, and the mimetype
when one is passed explicitly. -/
structure HttpResponse where
  body : String
  status_code : Nat
  mimetype : Option String
deriving DecidableEq

/-- One durable `upload_blob` write: target container, blob name, bytes. -/
structure BlobWrite where
  container : String
  blob : String
  bytes : Bytes
deriving DecidableEq

/-- The external collaborators `main` calls, fixed for one invocation:
PIL's decoder (`Image.open`, `none` on a decode error) and JPEG encoder
(`image.save(..., format="JPEG")`, which can itself raise), the fresh
`str(uuid.uuid4())` drawn by this invocation, the `AzureWebJobsStorage`
environment lookup (`none` models a missing variable, raising `KeyError`),
`BlobServiceClient.from_connection_string` (`none` models a raise), whether
each `upload_blob` call succeeds, and the `url` attribute a blob client
reports for a container and blob name. -/
structure Env where
  decode : Bytes → Option PILImage
  saveJPEG : PILImage → Except Unit Bytes
  uuid4 : String
  azureWebJobsStorage : Option String
  connect : String → Option Unit
  uploadOriginal : Bool
  uploadThumbnail : Bool
  blobUrl : String → String → String

/-- An incoming HTTP request, reduced to the one access `main` performs:
`req.files.get("file")`, which can raise (`Except.error`, e.g. on a malformed
multipart body) or return the optional file field. -/
structure HttpRequest where
  fileField : Except Unit (Option FileStorage)

/-- Blob name of the original image: `f"{uuid.uuid4()}_{file.filename}"`. -/
def originalBlobName (env : Env) (f : FileStorage) : String :=
  env.uuid4 ++ "_" ++ f.filename

/-- Blob name of the thumbnail: `f"thumb_{original_blob_name}"`. -/
def thumbnailBlobName (env : Env) (f : FileStorage) : String :=
  "thumb_" ++ originalBlobName env f

/-- The big `try` block of `main` (steps 2 through 7), entered once a truthy
file object is in hand; any raising step lands in the final `except`, which
answers 500 "Error processing image".  Returns the response and the ordered
trace of completed blob writes. -/
def processImage (env : Env) (f : FileStorage) : HttpResponse × List BlobWrite :=
  let image_bytes := f.content
  match env.decode image_bytes with
  | none => (⟨"Error processing image", 500, none⟩, [])
  | some image =>
    let thumb := applyThumbnail image
    match env.saveJPEG thumb with
    | Except.error _ => (⟨"Error processing image", 500, none⟩, [])
    | Except.ok thumb_bytes =>
      match env.azureWebJobsStorage with
      | none => (⟨"Error processing image", 500, none⟩, [])
      | some conn_str =>
        match env.connect conn_str with
        | none => (⟨"Error processing image", 500, none⟩, [])
        | some _ =>
          if env.uploadOriginal then
            let w₁ : BlobWrite := ⟨"originalimages", originalBlobName env f, image_bytes⟩
            if env.uploadThumbnail then
              let w₂ : BlobWrite := ⟨"thumbnails", thumbnailBlobName env f, thumb_bytes⟩
              let response_body := jsonDumps
                [("original_url", env.blobUrl "originalimages" (originalBlobName env f)),
                 ("thumbnail_url", env.blobUrl "thumbnails" (thumbnailBlobName env f))]
              (⟨response_body, 200, some "application/json"⟩, [w₁, w₂])
            else
              (⟨"Error processing image", 500, none⟩, [w₁])
          else
            (⟨"Error processing image", 500, none⟩, [])

/-- The Azure Function `main(req)`.  Step 1 retrieves the file field inside
its own `try` (a raise answers 500 "Error processing request"); a falsy file
answers 400 "No file uploaded"; otherwise processing proceeds. -/
def main (env : Env) (req : HttpRequest) : HttpResponse × List BlobWrite :=
  match req.fileField with
  | Except.error _ => (⟨"Error processing request", 500, none⟩, [])
  | Except.ok file =>
    if fileTruthy file then
      match file with
      | some f => processImage env f
      | none => (⟨"No file uploaded", 400, none⟩, [])
    else
      (⟨"No file uploaded", 400, none⟩, [])

/-- Alphabet of the canonical string form of `uuid.uuid4()`: lowercase
hexadecimal digits and the dash. -/
def uuidAlphabet : List Char := "0123456789abcdef-".data

/-- The canonical string form of a version-4 UUID: 36 characters drawn from
the hexadecimal-and-dash alphabet. -/
def IsUuid4Str (s : String) : Prop :=
  s.length = 36 ∧ ∀ c ∈ s.data, c ∈ uuidAlphabet

instance (s : String) : Decidable (IsUuid4Str s) := by
  unfold IsUuid4Str; infer_instance

/-- A sample environment on which every collaborator succeeds: decoding
yields a 2 by 3 image on non-empty bytes and fails on empty bytes. -/
def envOk : Env :=
  ⟨fun b => if b.isEmpty then none else some ⟨2, 3⟩,
   fun _ => Except.ok [7],
   "00000000-0000-4000-8000-000000000000",
   some "UseDevelopmentStorage=true",
   fun _ => some (),
   true, true,
   fun c n => "https://acct.blob.core.windows.net/" ++ c ++ "/" ++ n⟩

/-- A second sample environment, differing from `envOk` in its fresh UUID. -/
def envB : Env := { envOk with uuid4 := "11111111-1111-4111-8111-111111111111" }

/-- Sample environment whose decoder rejects every input. -/
def envDecodeFail : Env := { envOk with decode := fun _ => none }

/-- Sample environment whose thumbnail upload raises. -/
def envThumbFail : Env := { envOk with uploadThumbnail := false }

/-- Sample environment whose original upload raises. -/
def envOrigFail : Env := { envOk with uploadOriginal := false }

/-- Sample environment with no `AzureWebJobsStorage` variable. -/
def envNoConn : Env := { envOk with azureWebJobsStorage := none }

/-- A request carrying a well-formed file field. -/
def reqOk : HttpRequest := ⟨Except.ok (some ⟨"a.png", [1, 2]⟩)⟩

/-- A request with no `file` field. -/
def reqMissing : HttpRequest := ⟨Except.ok none⟩

/-- A request whose file field is present, with a filename but empty content. -/
def reqEmptyContent : HttpRequest := ⟨Except.ok (some ⟨"a.png", []⟩)⟩

/-- The thumbnail write of the successful sample run. -/
def thumbWriteOk : BlobWrite :=
  ⟨"thumbnails", thumbnailBlobName envOk ⟨"a.png", [1, 2]⟩, [7]⟩

/-- With a present file object whose filename is non-empty, `main` enters the
processing block. -/
theorem main_eq_processImage (env : Env) (req : HttpRequest) (f : FileStorage)
    (hreq : req.fileField = Except.ok (some f)) (hfn : f.filename ≠ "") :
    main env req = processImage env f := by
  unfold main
  rw [hreq]
  simp [fileTruthy, hfn]

/-- C1: a request with a valid image in the `file` field makes exactly the two
object-store writes (original bytes to `originalimages`, thumbnail bytes to
`thumbnails`) and answers 200 with a JSON body of exactly the fields
`original_url` and `thumbnail_url`, holding the two blob URLs. -/
theorem main_valid_two_writes_and_urls (env : Env) (req : HttpRequest)
    (f : FileStorage) (img : PILImage) (tb : Bytes) (cs : String)
    (hreq : req.fileField = Except.ok (some f)) (hfn : f.filename ≠ "")
    (hdec : env.decode f.content = some img)
    (hsave : env.saveJPEG (applyThumbnail img) = Except.ok tb)
    (hcs : env.azureWebJobsStorage = some cs)
    (hconn : env.connect cs = some ())
    (hu₁ : env.uploadOriginal = true) (hu₂ : env.uploadThumbnail = true) :
    main env req =
      (⟨jsonDumps
          [("original_url", env.blobUrl "originalimages" (originalBlobName env f)),
           ("thumbnail_url", env.blobUrl "thumbnails" (thumbnailBlobName env f))],
        200, some "application/json"⟩,
       [⟨"originalimages", originalBlobName env f, f.content⟩,
        ⟨"thumbnails", thumbnailBlobName env f, tb⟩]) := by
  rw [main_eq_processImage env req f hreq hfn]
  unfold processImage
  simp only [hdec, hsave, hcs, hconn, hu₁, hu₂, if_true]

/-- Witness for C1 at a concrete request and environment. -/
theorem main_valid_two_writes_and_urls_w :
    main envOk reqOk =
      (⟨jsonDumps
          [("original_url", envOk.blobUrl "originalimages" (originalBlobName envOk ⟨"a.png", [1, 2]⟩)),
           ("thumbnail_url", envOk.blobUrl "thumbnails" (thumbnailBlobName envOk ⟨"a.png", [1, 2]⟩))],
        200, some "application/json"⟩,
       [⟨"originalimages", originalBlobName envOk ⟨"a.png", [1, 2]⟩, [1, 2]⟩,
        ⟨"thumbnails", thumbnailBlobName envOk ⟨"a.png", [1, 2]⟩, [7]⟩]) :=
  main_valid_two_writes_and_urls envOk reqOk ⟨"a.png", [1, 2]⟩ ⟨2, 3⟩ [7]
    "UseDevelopmentStorage=true" rfl (by decide) rfl rfl rfl rfl rfl rfl

/-- C5: a present, truthy file whose bytes do not decode as an image yields
status 500 with the generic processing-error body and no object-store write. -/
theorem decode_failure_500_no_writes (env : Env) (req : HttpRequest)
    (f : FileStorage)
    (hreq : req.fileField = Except.ok (some f)) (hfn : f.filename ≠ "")
    (hdec : env.decode f.content = none) :
    (main env req).1.status_code = 500 ∧
    (main env req).1.body = "Error processing image" ∧
    (main env req).2 = [] := by
  rw [main_eq_processImage env req f hreq hfn]
  unfold processImage
  simp [hdec]

/-- Witness for C5: random non-image bytes produce 500 and no writes. -/
theorem decode_failure_500_no_writes_w :
    (main envDecodeFail reqOk).1.status_code = 500 ∧
    (main envDecodeFail reqOk).1.body = "Error processing image" ∧
    (main envDecodeFail reqOk).2 = [] :=
  decode_failure_500_no_writes envDecodeFail reqOk ⟨"a.png", [1, 2]⟩ rfl (by decide) rfl

/-- C4 counterexample: a request whose `file` field is present with filename
"a.png" and empty content is truthy (werkzeug truthiness looks at the
filename), so decoding is attempted, fails, and the response is 500 — not the
claimed 400. -/
theorem main_empty_content_is_500_not_400 :
    reqEmptyContent.fileField = Except.ok (some ⟨"a.png", []⟩) ∧
    (main envOk reqEmptyContent).1.status_code = 500 ∧
    ¬ (main envOk reqEmptyContent).1.status_code = 400 ∧
    (main envOk reqEmptyContent).2 = [] := by
  exact ⟨rfl, rfl, by decide, rfl⟩

/-- C4 amended: when the `file` field is absent — or the file object is falsy,
which for a werkzeug `FileStorage` means its filename is empty — `main`
returns 400 with no object-store write, and the decoder is never consulted
(the result is independent of it); a present file with a filename but empty
content instead reaches decoding. -/
theorem falsy_file_400_no_writes (env : Env) (req : HttpRequest)
    (fo : Option FileStorage)
    (hreq : req.fileField = Except.ok fo) (hfo : fileTruthy fo = false) :
    (main env req).1.status_code = 400 ∧
    (main env req).1.body = "No file uploaded" ∧
    (main env req).2 = [] ∧
    (∀ d, main { env with decode := d } req = main env req) := by
  have h400 : ∀ e : Env, main e req = (⟨"No file uploaded", 400, none⟩, []) := by
    intro e
    unfold main
    rw [hreq]
    simp [hfo]
  exact ⟨by rw [h400], by rw [h400], by rw [h400], fun d => by rw [h400, h400]⟩

/-- Witness for the amended C4: a request without the field gets 400. -/
theorem falsy_file_400_no_writes_w :
    (main envOk reqMissing).1.status_code = 400 ∧
    (main envOk reqMissing).1.body = "No file uploaded" ∧
    (main envOk reqMissing).2 = [] ∧
    (∀ d, main { envOk with decode := d } reqMissing = main envOk reqMissing) :=
  falsy_file_400_no_writes envOk reqMissing none rfl rfl

/-- A falsy file field short-circuits `main` to the 400 response. -/
theorem main_of_falsy (env : Env) (req : HttpRequest) (fo : Option FileStorage)
    (hreq : req.fileField = Except.ok fo) (hfo : fileTruthy fo = false) :
    main env req = (⟨"No file uploaded", 400, none⟩, []) := by
  unfold main
  rw [hreq]
  simp [hfo]

/-- A decode failure lands in the catch-all handler with no write performed. -/
theorem processImage_of_decode_fail (env : Env) (f : FileStorage)
    (hdec : env.decode f.content = none) :
    processImage env f = (⟨"Error processing image", 500, none⟩, []) := by
  unfold processImage
  simp [hdec]

/-- A JPEG re-encoding failure lands in the catch-all handler, no write done. -/
theorem processImage_of_save_fail (env : Env) (f : FileStorage) (img : PILImage)
    (hdec : env.decode f.content = some img)
    (hsave : env.saveJPEG (applyThumbnail img) = Except.error ()) :
    processImage env f = (⟨"Error processing image", 500, none⟩, []) := by
  unfold processImage
  simp [hdec, hsave]

/-- Without the `AzureWebJobsStorage` variable the invocation always ends in
the catch-all handler with no write performed. -/
theorem processImage_of_conn_none (env : Env) (f : FileStorage)
    (hcs : env.azureWebJobsStorage = none) :
    processImage env f = (⟨"Error processing image", 500, none⟩, []) := by
  unfold processImage
  cases hdec : env.decode f.content with
  | none => simp [hdec]
  | some img =>
    cases hsave : env.saveJPEG (applyThumbnail img) with
    | error u => simp [hdec, hsave]
    | ok tb => simp [hdec, hsave, hcs]

/-- When building the blob service client from the connection string raises,
the invocation ends in the catch-all handler with no write performed. -/
theorem processImage_of_connect_fail (env : Env) (f : FileStorage) (cs : String)
    (hcs : env.azureWebJobsStorage = some cs) (hconn : env.connect cs = none) :
    processImage env f = (⟨"Error processing image", 500, none⟩, []) := by
  unfold processImage
  cases hdec : env.decode f.content with
  | none => simp [hdec]
  | some img =>
    cases hsave : env.saveJPEG (applyThumbnail img) with
    | error u => simp [hdec, hsave]
    | ok tb => simp [hdec, hsave, hcs, hconn]

/-- When the original upload raises, the invocation ends in the catch-all
handler with no write performed. -/
theorem processImage_of_orig_fail (env : Env) (f : FileStorage)
    (hu₁ : env.uploadOriginal = false) :
    processImage env f = (⟨"Error processing image", 500, none⟩, []) := by
  unfold processImage
  cases hdec : env.decode f.content with
  | none => simp [hdec]
  | some img =>
    cases hsave : env.saveJPEG (applyThumbnail img) with
    | error u => simp [hdec, hsave]
    | ok tb =>
      cases hcs : env.azureWebJobsStorage with
      | none => simp [hdec, hsave, hcs]
      | some cs =>
        cases hconn : env.connect cs with
        | none => simp [hdec, hsave, hcs, hconn]
        | some u => simp [hdec, hsave, hcs, hconn, hu₁]

/-- When the thumbnail upload raises after every earlier step succeeded, the
invocation answers 500 and the trace holds exactly the original's write. -/
theorem processImage_of_thumb_fail (env : Env) (f : FileStorage) (img : PILImage)
    (tb : Bytes) (cs : String)
    (hdec : env.decode f.content = some img)
    (hsave : env.saveJPEG (applyThumbnail img) = Except.ok tb)
    (hcs : env.azureWebJobsStorage = some cs) (hconn : env.connect cs = some ())
    (hu₁ : env.uploadOriginal = true) (hu₂ : env.uploadThumbnail = false) :
    processImage env f =
      (⟨"Error processing image", 500, none⟩,
       [⟨"originalimages", originalBlobName env f, f.content⟩]) := by
  unfold processImage
  simp [hdec, hsave, hcs, hconn, hu₁, hu₂]

/-- Every response of the processing block carries status 200 or 500. -/
theorem processImage_status_cases (env : Env) (f : FileStorage) :
    (processImage env f).1.status_code = 200 ∨
    (processImage env f).1.status_code = 500 := by
  unfold processImage
  cases hdec : env.decode f.content with
  | none => simp [hdec]
  | some img =>
    cases hsave : env.saveJPEG (applyThumbnail img) with
    | error u => simp [hdec, hsave]
    | ok tb =>
      cases hcs : env.azureWebJobsStorage with
      | none => simp [hdec, hsave, hcs]
      | some cs =>
        cases hconn : env.connect cs with
        | none => simp [hdec, hsave, hcs, hconn]
        | some u =>
          by_cases hu₁ : env.uploadOriginal = true
          · by_cases hu₂ : env.uploadThumbnail = true
            · simp [hdec, hsave, hcs, hconn, hu₁, hu₂]
            · simp [hdec, hsave, hcs, hconn, hu₁, hu₂]
          · simp [hdec, hsave, hcs, hconn, hu₁]

/-- Case analysis of the write trace of one invocation of `main`: no write,
only the original's write, or the original's write followed by the
thumbnail's write. -/
theorem main_trace_cases (env : Env) (req : HttpRequest) :
    (main env req).2 = [] ∨
    (∃ f, req.fileField = Except.ok (some f) ∧
      (main env req).2 = [⟨"originalimages", originalBlobName env f, f.content⟩]) ∨
    (∃ f img tb, req.fileField = Except.ok (some f) ∧
      env.decode f.content = some img ∧
      env.saveJPEG (applyThumbnail img) = Except.ok tb ∧
      (main env req).2 =
        [⟨"originalimages", originalBlobName env f, f.content⟩,
         ⟨"thumbnails", thumbnailBlobName env f, tb⟩]) := by
  cases hF : req.fileField with
  | error e =>
    left
    unfold main
    rw [hF]
  | ok fo =>
    cases fo with
    | none =>
      left
      rw [main_of_falsy env req none hF rfl]
    | some f =>
      by_cases hfn : f.filename = ""
      · left
        rw [main_of_falsy env req (some f) hF (by simp [fileTruthy, hfn])]
      · rw [main_eq_processImage env req f hF hfn]
        cases hdec : env.decode f.content with
        | none => left; rw [processImage_of_decode_fail env f hdec]
        | some img =>
          cases hsave : env.saveJPEG (applyThumbnail img) with
          | error u =>
            left
            rw [processImage_of_save_fail env f img hdec hsave]
          | ok tb =>
            cases hcs : env.azureWebJobsStorage with
            | none => left; rw [processImage_of_conn_none env f hcs]
            | some cs =>
              cases hconn : env.connect cs with
              | none => left; rw [processImage_of_connect_fail env f cs hcs hconn]
              | some u =>
                by_cases hu₁ : env.uploadOriginal = true
                · by_cases hu₂ : env.uploadThumbnail = true
                  · right; right
                    refine ⟨f, img, tb, rfl, hdec, hsave, ?_⟩
                    unfold processImage
                    simp [hdec, hsave, hcs, hconn, hu₁, hu₂]
                  · right; left
                    refine ⟨f, rfl, ?_⟩
                    rw [processImage_of_thumb_fail env f img tb cs hdec hsave hcs hconn hu₁
                      (by simpa using hu₂)]
                · left
                  rw [processImage_of_orig_fail env f (by simpa using hu₁)]

/-- C9: the write trace never holds a thumbnail write without a preceding
original write: it is empty, a lone `originalimages` write, or an
`originalimages` write followed by the `thumbnails` write named after it. -/
theorem thumbnail_write_only_after_original (env : Env) (req : HttpRequest) :
    (main env req).2 = [] ∨
    (∃ o, (main env req).2 = [o] ∧ o.container = "originalimages") ∨
    (∃ o t, (main env req).2 = [o, t] ∧ o.container = "originalimages" ∧
      t.container = "thumbnails" ∧ t.blob = "thumb_" ++ o.blob) := by
  rcases main_trace_cases env req with h | ⟨f, _, h⟩ | ⟨f, img, tb, _, _, _, h⟩
  · exact Or.inl h
  · exact Or.inr (Or.inl ⟨_, h, rfl⟩)
  · exact Or.inr (Or.inr ⟨_, _, h, rfl, rfl, rfl⟩)

/-- C6: any write to the `thumbnails` container carries exactly the bytes the
JPEG encoder produced for the thumbnailed decoded image — the stored
thumbnail is always a JPEG encoding, whatever the uploaded format was. -/
theorem thumbnail_write_is_jpeg_encoded (env : Env) (req : HttpRequest)
    (w : BlobWrite) (hw : w ∈ (main env req).2) (hc : w.container = "thumbnails") :
    ∃ f img, req.fileField = Except.ok (some f) ∧
      env.decode f.content = some img ∧
      env.saveJPEG (applyThumbnail img) = Except.ok w.bytes := by
  rcases main_trace_cases env req with h | ⟨f, hF, h⟩ | ⟨f, img, tb, hF, hdec, hsave, h⟩
  · rw [h] at hw
    exact absurd hw (List.not_mem_nil w)
  · rw [h] at hw
    rw [List.mem_singleton.mp hw] at hc
    simp at hc
  · rw [h] at hw
    rcases List.mem_pair.mp hw with hw₁ | hw₂
    · rw [hw₁] at hc
      simp at hc
    · subst hw₂
      exact ⟨f, img, hF, hdec, hsave⟩

/-- Witness for C6 on the successful sample run. -/
theorem thumbnail_write_is_jpeg_encoded_w :
    ∃ f img, reqOk.fileField = Except.ok (some f) ∧
      envOk.decode f.content = some img ∧
      envOk.saveJPEG (applyThumbnail img) = Except.ok thumbWriteOk.bytes :=
  thumbnail_write_is_jpeg_encoded envOk reqOk thumbWriteOk (by decide) rfl

/-- C7 counterexample: a decode failure and a processing (thumbnail-upload)
failure are distinct error kinds, yet both responses carry status 500 — they
are not distinguishable by status code. -/
theorem decode_and_processing_share_status :
    (main envDecodeFail reqOk).1.status_code = 500 ∧
    (main envDecodeFail reqOk).2 = [] ∧
    (main envThumbFail reqOk).1.status_code = 500 ∧
    (main envThumbFail reqOk).2.length = 1 ∧
    (main envDecodeFail reqOk).1.status_code = (main envThumbFail reqOk).1.status_code := by
  decide

/-- C7 amended: MissingFile answers 400 and is distinguishable by status code
from the server-error kinds, while DecodeFailure and ProcessingFailure both
answer 500 (after a successful decode every response is 200 or 500). -/
theorem error_statuses (env : Env) (req : HttpRequest) :
    (∀ fo, req.fileField = Except.ok fo → fileTruthy fo = false →
      (main env req).1.status_code = 400) ∧
    (∀ f, req.fileField = Except.ok (some f) → f.filename ≠ "" →
      env.decode f.content = none → (main env req).1.status_code = 500) ∧
    (∀ f img, req.fileField = Except.ok (some f) → f.filename ≠ "" →
      env.decode f.content = some img →
      (main env req).1.status_code = 200 ∨ (main env req).1.status_code = 500) := by
  refine ⟨?_, ?_, ?_⟩
  · intro fo hF hfo
    rw [main_of_falsy env req fo hF hfo]
  · intro f hF hfn hdec
    rw [main_eq_processImage env req f hF hfn, processImage_of_decode_fail env f hdec]
  · intro f img hF hfn _
    rw [main_eq_processImage env req f hF hfn]
    exact processImage_status_cases env f

/-- Witness for the amended C7 on concrete runs. -/
theorem error_statuses_w :
    (main envOk reqMissing).1.status_code = 400 ∧
    (main envDecodeFail reqOk).1.status_code = 500 :=
  ⟨(error_statuses envOk reqMissing).1 none rfl rfl,
   (error_statuses envDecodeFail reqOk).2.1 ⟨"a.png", [1, 2]⟩ rfl (by decide) rfl⟩

/-- C8: any failure after decoding — JPEG re-encoding, missing credential,
client construction, either upload — yields status 500; when the thumbnail
upload fails after the original upload succeeded, the original's write stays
in the trace: it is not rolled back. -/
theorem processing_failure_500_keeps_partial_writes (env : Env)
    (req : HttpRequest) (f : FileStorage) (img : PILImage)
    (hreq : req.fileField = Except.ok (some f)) (hfn : f.filename ≠ "")
    (hdec : env.decode f.content = some img) :
    (env.saveJPEG (applyThumbnail img) = Except.error () →
      (main env req).1.status_code = 500 ∧ (main env req).2 = []) ∧
    (env.azureWebJobsStorage = none →
      (main env req).1.status_code = 500 ∧ (main env req).2 = []) ∧
    (∀ cs, env.azureWebJobsStorage = some cs → env.connect cs = none →
      (main env req).1.status_code = 500 ∧ (main env req).2 = []) ∧
    (env.uploadOriginal = false →
      (main env req).1.status_code = 500 ∧ (main env req).2 = []) ∧
    (∀ tb cs, env.saveJPEG (applyThumbnail img) = Except.ok tb →
      env.azureWebJobsStorage = some cs → env.connect cs = some () →
      env.uploadOriginal = true → env.uploadThumbnail = false →
      (main env req).1.status_code = 500 ∧
      (main env req).1.body = "Error processing image" ∧
      (main env req).2 = [⟨"originalimages", originalBlobName env f, f.content⟩]) := by
  rw [main_eq_processImage env req f hreq hfn]
  refine ⟨?_, ?_, ?_, ?_, ?_⟩
  · intro hsave
    rw [processImage_of_save_fail env f img hdec hsave]
    exact ⟨rfl, rfl⟩
  · intro hcs
    rw [processImage_of_conn_none env f hcs]
    exact ⟨rfl, rfl⟩
  · intro cs hcs hconn
    rw [processImage_of_connect_fail env f cs hcs hconn]
    exact ⟨rfl, rfl⟩
  · intro hu₁
    rw [processImage_of_orig_fail env f hu₁]
    exact ⟨rfl, rfl⟩
  · intro tb cs hsave hcs hconn hu₁ hu₂
    rw [processImage_of_thumb_fail env f img tb cs hdec hsave hcs hconn hu₁ hu₂]
    exact ⟨rfl, rfl, rfl⟩

/-- Witness for C8: the thumbnail upload fails, 500 is returned, and the
original's write remains in the trace. -/
theorem processing_failure_500_keeps_partial_writes_w :
    (main envThumbFail reqOk).1.status_code = 500 ∧
    (main envThumbFail reqOk).1.body = "Error processing image" ∧
    (main envThumbFail reqOk).2 =
      [⟨"originalimages", originalBlobName envThumbFail ⟨"a.png", [1, 2]⟩, [1, 2]⟩] :=
  (processing_failure_500_keeps_partial_writes envThumbFail reqOk
    ⟨"a.png", [1, 2]⟩ ⟨2, 3⟩ rfl (by decide) rfl).2.2.2.2
    [7] "UseDevelopmentStorage=true" rfl rfl rfl rfl rfl

/-- C10: the `AzureWebJobsStorage` credential plays no role until the image
has been decoded and the thumbnail encoded — on a decode or re-encoding
failure the outcome is independent of it — and when it is absent, or no
client can be built from it, `main` answers 500 with no write performed. -/
theorem conn_credential_after_encode (env : Env) (req : HttpRequest)
    (f : FileStorage)
    (hreq : req.fileField = Except.ok (some f)) (hfn : f.filename ≠ "") :
    ((env.decode f.content = none ∨
      (∃ img, env.decode f.content = some img ∧
        env.saveJPEG (applyThumbnail img) = Except.error ())) →
      ∀ c, main { env with azureWebJobsStorage := c } req = main env req) ∧
    (env.azureWebJobsStorage = none →
      (main env req).1.status_code = 500 ∧ (main env req).2 = []) ∧
    (∀ cs, env.azureWebJobsStorage = some cs → env.connect cs = none →
      (main env req).1.status_code = 500 ∧ (main env req).2 = []) := by
  refine ⟨?_, ?_, ?_⟩
  · intro hfail c
    rw [main_eq_processImage env req f hreq hfn,
      main_eq_processImage { env with azureWebJobsStorage := c } req f hreq hfn]
    rcases hfail with hdec | ⟨img, hdec, hsave⟩
    · rw [processImage_of_decode_fail env f hdec,
        processImage_of_decode_fail { env with azureWebJobsStorage := c } f hdec]
    · rw [processImage_of_save_fail env f img hdec hsave,
        processImage_of_save_fail { env with azureWebJobsStorage := c } f img hdec hsave]
  · intro hcs
    rw [main_eq_processImage env req f hreq hfn, processImage_of_conn_none env f hcs]
    exact ⟨rfl, rfl⟩
  · intro cs hcs hconn
    rw [main_eq_processImage env req f hreq hfn,
      processImage_of_connect_fail env f cs hcs hconn]
    exact ⟨rfl, rfl⟩

/-- Witness for C10: without the environment variable the sample run answers
500 and writes nothing. -/
theorem conn_credential_after_encode_w :
    (main envNoConn reqOk).1.status_code = 500 ∧ (main envNoConn reqOk).2 = [] :=
  (conn_credential_after_encode envNoConn reqOk ⟨"a.png", [1, 2]⟩ rfl (by decide)).2.1 rfl

/-- Two token-underscore-filename concatenations with equally long tokens can
only agree when the tokens agree. -/
theorem token_append_ne (u₁ u₂ fn₁ fn₂ : String)
    (hlen : u₁.length = u₂.length) (hne : u₁ ≠ u₂) :
    u₁ ++ "_" ++ fn₁ ≠ u₂ ++ "_" ++ fn₂ := by
  intro h
  apply hne
  apply String.ext
  have hd := congrArg String.data h
  rw [String.data_append, String.data_append, String.data_append,
    String.data_append] at hd
  have h₁ : u₁.data ++ "_".data = u₂.data ++ "_".data := by
    apply List.append_inj_left hd
    simp [List.length_append]
    exact hlen
  exact List.append_inj_left h₁ hlen

/-- A name starting with a UUID character is never a name starting with the
literal tag "thumb_". -/
theorem token_append_ne_thumb (u fn s : String)
    (hu : ∀ c ∈ u.data, c ∈ uuidAlphabet) :
    u ++ "_" ++ fn ≠ "thumb_" ++ s := by
  intro h
  have hd := congrArg String.data h
  rw [String.data_append, String.data_append, String.data_append] at hd
  rw [List.append_assoc] at hd
  cases hdata : u.data with
  | nil =>
    rw [hdata] at hd
    simp only [List.nil_append] at hd
    have h₀ := congrArg (fun l => l.head?) hd
    simp at h₀
  | cons c cs =>
    rw [hdata] at hd
    simp only [List.cons_append] at hd
    have hct : c = 't' := by
      have := congrArg (fun l => l.head?) hd
      simpa using this
    have hc : c ∈ uuidAlphabet := hu c (hdata ▸ List.mem_cons_self c cs)
    rw [hct] at hc
    exact absurd hc (by decide)

/-- C3: the original's blob name is the fresh token joined by an underscore to
the uploaded filename; the thumbnail's is that name tagged with the literal
"thumb_"; and for two invocations drawing distinct UUIDs the four names are
pairwise distinct, so the second upload overwrites nothing of the first. -/
theorem blob_names_fresh_and_distinct (env₁ env₂ : Env) (f₁ f₂ : FileStorage)
    (h₁ : IsUuid4Str env₁.uuid4) (h₂ : IsUuid4Str env₂.uuid4)
    (hne : env₁.uuid4 ≠ env₂.uuid4) :
    originalBlobName env₁ f₁ = env₁.uuid4 ++ "_" ++ f₁.filename ∧
    thumbnailBlobName env₁ f₁ = "thumb_" ++ originalBlobName env₁ f₁ ∧
    originalBlobName env₁ f₁ ≠ originalBlobName env₂ f₂ ∧
    originalBlobName env₁ f₁ ≠ thumbnailBlobName env₂ f₂ ∧
    originalBlobName env₂ f₂ ≠ thumbnailBlobName env₁ f₁ ∧
    thumbnailBlobName env₁ f₁ ≠ thumbnailBlobName env₂ f₂ ∧
    originalBlobName env₁ f₁ ≠ thumbnailBlobName env₁ f₁ ∧
    originalBlobName env₂ f₂ ≠ thumbnailBlobName env₂ f₂ := by
  have horig : originalBlobName env₁ f₁ ≠ originalBlobName env₂ f₂ :=
    token_append_ne env₁.uuid4 env₂.uuid4 f₁.filename f₂.filename
      (h₁.1.trans h₂.1.symm) hne
  refine ⟨rfl, rfl, horig, ?_, ?_, ?_, ?_, ?_⟩
  · exact token_append_ne_thumb env₁.uuid4 f₁.filename (originalBlobName env₂ f₂) h₁.2
  · exact token_append_ne_thumb env₂.uuid4 f₂.filename (originalBlobName env₁ f₁) h₂.2
  · intro h
    exact horig (String.ext (List.append_cancel_left (congrArg String.data h)))
  · exact token_append_ne_thumb env₁.uuid4 f₁.filename (originalBlobName env₁ f₁) h₁.2
  · exact token_append_ne_thumb env₂.uuid4 f₂.filename (originalBlobName env₂ f₂) h₂.2

/-- The result of `round_aspect` is the clamped floor or the clamped ceiling
of its input, whatever the key function prefers. -/
theorem round_aspect_cases (t : ℚ) (key : ℤ → ℚ) :
    round_aspect t key = max ⌊t⌋ 1 ∨ round_aspect t key = max ⌈t⌉ 1 := by
  unfold round_aspect pyMinBy
  split
  · exact Or.inl rfl
  · exact Or.inr rfl

/-- `round_aspect` never returns less than one. -/
theorem one_le_round_aspect (t : ℚ) (key : ℤ → ℚ) : 1 ≤ round_aspect t key :=
  le_max_right _ 1

/-- `round_aspect` of a value at most `C` stays at most `C`, for `C ≥ 1`. -/
theorem round_aspect_le (t : ℚ) (key : ℤ → ℚ) (C : ℤ) (h1 : 1 ≤ C)
    (h2 : t ≤ (C : ℚ)) : round_aspect t key ≤ C := by
  have hceil : ⌈t⌉ ≤ C := Int.ceil_le.mpr h2
  have hfloor : ⌊t⌋ ≤ C := le_trans (Int.floor_le_ceil t) hceil
  rcases round_aspect_cases t key with h | h <;> rw [h]
  · exact max_le hfloor h1
  · exact max_le hceil h1

/-- On positive input `round_aspect` lands strictly within one of it. -/
theorem abs_round_aspect_sub_lt (t : ℚ) (key : ℤ → ℚ) (ht : 0 < t) :
    |((round_aspect t key : ℤ) : ℚ) - t| < 1 := by
  rcases round_aspect_cases t key with h | h <;> rw [h]
  · rcases le_or_lt 1 ⌊t⌋ with h1 | h1
    · rw [max_eq_left h1, abs_lt]
      have hf1 := Int.floor_le t
      have hf2 := Int.lt_floor_add_one t
      constructor <;> linarith
    · rw [max_eq_right h1.le, abs_lt]
      have h2 : t < 1 := by
        have hf2 := Int.lt_floor_add_one t
        have h3 : (⌊t⌋ : ℚ) + 1 ≤ 1 := by exact_mod_cast Int.add_one_le_iff.mpr h1
        linarith
      constructor <;> push_cast <;> linarith
  · have h0 := Int.ceil_pos.mpr ht
    have h1 : 1 ≤ ⌈t⌉ := by omega
    rw [max_eq_left h1, abs_lt]
    have hc1 := Int.le_ceil t
    have hc2 := Int.ceil_lt_add_one t
    constructor <;> linarith

/-- Casting the truncation of a positive integer back to the rationals. -/
theorem toNat_cast_rat (r : ℤ) (h1 : 1 ≤ r) : ((r.toNat : ℕ) : ℚ) = (r : ℚ) := by
  exact_mod_cast Int.toNat_of_nonneg (le_trans zero_le_one h1)

/-- Dimensional specification of `thumbnailDims` with the 128 by 128 box:
both sides end at most 128, an already fitting image is unchanged, and one of
the two aspect-ratio residuals is strictly below one pixel. -/
theorem thumbnailDims_spec (w h : ℕ) (hw : 1 ≤ w) (hh : 1 ≤ h) :
    (thumbnailDims w h 128 128).1 ≤ 128 ∧
    (thumbnailDims w h 128 128).2 ≤ 128 ∧
    (w ≤ 128 → h ≤ 128 → thumbnailDims w h 128 128 = (w, h)) ∧
    (|((thumbnailDims w h 128 128).1 : ℚ) -
        ((thumbnailDims w h 128 128).2 : ℚ) * w / h| < 1 ∨
     |((thumbnailDims w h 128 128).2 : ℚ) -
        ((thumbnailDims w h 128 128).1 : ℚ) * h / w| < 1) := by
  have hw0 : (0 : ℚ) < (w : ℚ) := by exact_mod_cast hw
  have hh0 : (0 : ℚ) < (h : ℚ) := by exact_mod_cast hh
  have hhne : (h : ℚ) ≠ 0 := ne_of_gt hh0
  unfold thumbnailDims
  split
  next hg =>
    refine ⟨hg.1, hg.2, fun _ _ => rfl, Or.inl ?_⟩
    rw [mul_comm ((h : ℚ)) ((w : ℚ)), mul_div_assoc, div_self hhne, mul_one,
      sub_self, abs_zero]
    norm_num
  next hg =>
    dsimp only
    split
    next hbr =>
      have haspect : (w : ℚ) / h ≤ 1 := by
        have h1 : ((128 : ℕ) : ℚ) / ((128 : ℕ) : ℚ) = 1 := by norm_num
        rw [h1] at hbr
        exact hbr
      have hT0 : 0 < ((128 : ℕ) : ℚ) * ((w : ℚ) / (h : ℚ)) :=
        mul_pos (by norm_num) (div_pos hw0 hh0)
      have hC : ((128 : ℕ) : ℚ) * ((w : ℚ) / (h : ℚ)) ≤ ((((128 : ℕ) : ℤ)) : ℚ) := by
        push_cast
        linarith [haspect]
      refine ⟨?_, le_refl 128, fun hw' hh' => absurd ⟨hw', hh'⟩ hg, Or.inl ?_⟩
      · exact Int.toNat_le.mpr (round_aspect_le _ _ ((128 : ℕ) : ℤ) (by norm_num) hC)
      · rw [toNat_cast_rat _ (one_le_round_aspect _ _), mul_div_assoc]
        exact abs_round_aspect_sub_lt _ _ hT0
    next hbr =>
      have hwh : 1 < (w : ℚ) / (h : ℚ) := by
        have h1 : ((128 : ℕ) : ℚ) / ((128 : ℕ) : ℚ) = 1 := by norm_num
        rw [h1] at hbr
        exact not_le.mp hbr
      have hT0 : 0 < ((128 : ℕ) : ℚ) / ((w : ℚ) / (h : ℚ)) :=
        div_pos (by norm_num) (lt_trans one_pos hwh)
      have hC : ((128 : ℕ) : ℚ) / ((w : ℚ) / (h : ℚ)) ≤ ((((128 : ℕ) : ℤ)) : ℚ) := by
        push_cast
        exact div_le_self (by norm_num) hwh.le
      refine ⟨le_refl 128, ?_, fun hw' hh' => absurd ⟨hw', hh'⟩ hg, Or.inr ?_⟩
      · exact Int.toNat_le.mpr (round_aspect_le _ _ ((128 : ℕ) : ℤ) (by norm_num) hC)
      · rw [toNat_cast_rat _ (one_le_round_aspect _ _), ← div_div_eq_mul_div]
        exact abs_round_aspect_sub_lt _ _ hT0

/-- C2: the thumbnail of an image with positive dimensions has both sides at
most 128 pixels; an image already fitting the 128 box is returned unchanged
(never upscaled); and the output preserves the input's aspect ratio within a
rounding error of one pixel. -/
theorem applyThumbnail_spec (img : PILImage)
    (hw : 1 ≤ img.width) (hh : 1 ≤ img.height) :
    (applyThumbnail img).width ≤ 128 ∧
    (applyThumbnail img).height ≤ 128 ∧
    (img.width ≤ 128 → img.height ≤ 128 → applyThumbnail img = img) ∧
    (|((applyThumbnail img).width : ℚ) -
        ((applyThumbnail img).height : ℚ) * img.width / img.height| < 1 ∨
     |((applyThumbnail img).height : ℚ) -
        ((applyThumbnail img).width : ℚ) * img.height / img.width| < 1) := by
  obtain ⟨hs1, hs2, hs3, hs4⟩ := thumbnailDims_spec img.width img.height hw hh
  refine ⟨hs1, hs2, ?_, hs4⟩
  intro h1 h2
  unfold applyThumbnail
  rw [hs3 h1 h2]

/-- Witness for C2 at a 1000 by 500 image. -/
theorem applyThumbnail_spec_w :
    (applyThumbnail ⟨1000, 500⟩).width ≤ 128 ∧
    (applyThumbnail ⟨1000, 500⟩).height ≤ 128 ∧
    ((1000 : ℕ) ≤ 128 → (500 : ℕ) ≤ 128 → applyThumbnail ⟨1000, 500⟩ = ⟨1000, 500⟩) ∧
    (|((applyThumbnail ⟨1000, 500⟩).width : ℚ) -
        ((applyThumbnail ⟨1000, 500⟩).height : ℚ) * (1000 : ℕ) / (500 : ℕ)| < 1 ∨
     |((applyThumbnail ⟨1000, 500⟩).height : ℚ) -
        ((applyThumbnail ⟨1000, 500⟩).width : ℚ) * (500 : ℕ) / (1000 : ℕ)| < 1) :=
  applyThumbnail_spec ⟨1000, 500⟩ (by decide) (by decide)

/-- Witness for C3: two concrete UUIDs give pairwise distinct names for two
uploads of the identical file. -/
theorem blob_names_fresh_and_distinct_w :
    originalBlobName envOk ⟨"a.png", [1, 2]⟩ = envOk.uuid4 ++ "_" ++ "a.png" ∧
    thumbnailBlobName envOk ⟨"a.png", [1, 2]⟩ = "thumb_" ++ originalBlobName envOk ⟨"a.png", [1, 2]⟩ ∧
    originalBlobName envOk ⟨"a.png", [1, 2]⟩ ≠ originalBlobName envB ⟨"a.png", [1, 2]⟩ ∧
    originalBlobName envOk ⟨"a.png", [1, 2]⟩ ≠ thumbnailBlobName envB ⟨"a.png", [1, 2]⟩ ∧
    originalBlobName envB ⟨"a.png", [1, 2]⟩ ≠ thumbnailBlobName envOk ⟨"a.png", [1, 2]⟩ ∧
    thumbnailBlobName envOk ⟨"a.png", [1, 2]⟩ ≠ thumbnailBlobName envB ⟨"a.png", [1, 2]⟩ ∧
    originalBlobName envOk ⟨"a.png", [1, 2]⟩ ≠ thumbnailBlobName envOk ⟨"a.png", [1, 2]⟩ ∧
    originalBlobName envB ⟨"a.png", [1, 2]⟩ ≠ thumbnailBlobName envB ⟨"a.png", [1, 2]⟩ :=
  blob_names_fresh_and_distinct envOk envB ⟨"a.png", [1, 2]⟩ ⟨"a.png", [1, 2]⟩
    (by decide) (by decide) (by decide)

end GenerateThumbnail
